import Mathlib

/-!
Shallow embedding of the `labberreader` core of the `ccukit` repository
(`src/labberreader/core.py`, `vnaxany.py`, `vnaxdc.py`, `SAxANY.py`).

Numeric fields are modelled over `ℚ`: the `Decimal` step of the source is exact
arithmetic, and the claims under study are statements about the exact
formulas, not about binary floating-point rounding.  The Python `round`
(round half to even) is modelled by `roundHalfEven`,
and `int(...)` truncation toward zero by `truncToInt`.
-/

namespace Ccukit

/-- Model of the Python builtin `round`: round to nearest, ties to even (applied to exact `ℚ`). -/
def roundHalfEven (q : ℚ) : ℤ :=
  let n := ⌊q⌋
  let r := q - n
  if r < 1/2 then n
  else if 1/2 < r then n + 1
  else if 2 ∣ n then n else n + 1

/-- Model of the Python builtin `int` on a number: truncation toward zero. -/
def truncToInt (q : ℚ) : ℤ :=
  if 0 ≤ q then ⌊q⌋ else ⌈q⌉

theorem roundHalfEven_intCast (n : ℤ) : roundHalfEven (n : ℚ) = n := by
  simp [roundHalfEven]

theorem truncToInt_intCast (n : ℤ) : truncToInt (n : ℚ) = n := by
  rcases le_or_lt 0 (n : ℚ) with h | h
  · simp [truncToInt, h]
  · simp [truncToInt, not_le.mpr h]

/-! ## `LabberHDF._get_reevaluated_step_item` (`core.py`, lines 65-116)

The raw step item is the dictionary read from the file: the enum fields
have already been converted to their strings (`Single`, `Start - Stop`,
`Center - Span`; `Fixed step`, `Fixed # of pts`) and every numeric
field is a number (the source reads them all as `float`). -/

structure StepItem where
  range_type : String
  step_type  : String
  single : ℚ
  start  : ℚ
  stop   : ℚ
  center : ℚ
  span   : ℚ
  step   : ℚ
  n_pts  : ℚ
deriving DecidableEq

/-- The `result_dict` built by `_get_reevaluated_step_item`.  Keys that a
given branch does not write are `none`. -/
structure StepResult where
  range_type : String
  follow : Option String := none
  single : Option ℚ := none
  start  : Option ℚ := none
  stop   : Option ℚ := none
  center : Option ℚ := none
  span   : Option ℚ := none
  step   : Option ℚ := none
  n_pts  : Option ℤ := none
deriving DecidableEq

/-- Model of `LabberHDF._get_reevaluated_step_item`.  `use_relation`, `equation`
come from `steplist_dict`; `var_sym`/`var_name` from the relation-parameter
record.  The source conversions `Decimal(str(...))` and `float(...)` are the
identity in the exact model.  For a `range_type` other than the three known
strings the source would hit an unbound local `span`; the claims only
exercise the known strings, and `0` stands in for that unreachable value. -/
def get_reevaluated_step_item (item : StepItem) (use_relation : Bool)
    (equation var_sym var_name : String) : StepResult :=
  if use_relation then
    { range_type := "Follow"
      follow := some (equation ++ ", " ++ var_sym ++ " = " ++ var_name) }
  else if item.range_type = "Single" then
    { range_type := "Single"
      single := some item.single
      start  := some item.single
      stop   := some item.single
      center := some item.single
      span   := some 0
      step   := some 0
      n_pts  := some 1 }
  else
    let base : StepResult := { range_type := "Sweep" }
    let r1 :=
      if item.range_type = "Start - Stop" then
        { base with
          start  := some item.start
          stop   := some item.stop
          center := some ((item.start + item.stop) / 2)
          span   := some |item.stop - item.start| }
      else base
    let r2 :=
      if item.range_type = "Center - Span" then
        { r1 with
          start  := some (item.center - item.span / 2)
          stop   := some (item.center + item.span / 2)
          center := some item.center
          span   := some item.span }
      else r1
    -- the local `span` kept by the source "for step use"
    let span : ℚ :=
      if item.range_type = "Start - Stop" then |item.stop - item.start|
      else if item.range_type = "Center - Span" then item.span
      else 0
    let r3 :=
      if item.step_type = "Fixed step" then
        { r2 with
          step  := some item.step
          n_pts := some (roundHalfEven (span / item.step) + 1) }
      else r2
    if item.step_type = "Fixed # of pts" then
      { r3 with
        n_pts := some (truncToInt item.n_pts)
        step  := some (span / (truncToInt item.n_pts - 1 : ℤ)) }
    else r3

/-- The §8 scenario record: `range_type=Start-Stop`, `start=1.0`,
`stop=5.0`, `step_type=Fixed-#-of-points`, `n_pts=5`. -/
def scenarioItem : StepItem :=
  { range_type := "Start - Stop", step_type := "Fixed # of pts",
    single := 0, start := 1, stop := 5, center := 0, span := 0, step := 0, n_pts := 5 }

/-- C1: For a raw record with the relation flag off and
`range_type = Start - Stop`: with `step_type = Fixed-#-of-points` and
`n_pts = n ≥ 2` the decoder outputs the raw `start` and `stop`,
`center = (start+stop)/2`, `span = |stop-start|`, `step = span/(n-1)` and
`n_pts = n`; with `step_type = Fixed-step` it outputs
`n_pts = round(span/step) + 1` instead.  The §8 scenario record decodes to
`{start:1, stop:5, center:3, span:4, step:1, n_pts:5}`. -/
theorem C1_step_reevaluation (item : StepItem) (equation var_sym var_name : String)
    (hr : item.range_type = "Start - Stop") (n : ℤ) (hn : 2 ≤ n)
    (hnpts : item.n_pts = (n : ℚ)) :
    (item.step_type = "Fixed # of pts" →
      get_reevaluated_step_item item false equation var_sym var_name =
        { range_type := "Sweep",
          start  := some item.start
          stop   := some item.stop
          center := some ((item.start + item.stop) / 2)
          span   := some |item.stop - item.start|
          step   := some (|item.stop - item.start| / ((n : ℚ) - 1))
          n_pts  := some n }) ∧
    (item.step_type = "Fixed step" →
      get_reevaluated_step_item item false equation var_sym var_name =
        { range_type := "Sweep",
          start  := some item.start
          stop   := some item.stop
          center := some ((item.start + item.stop) / 2)
          span   := some |item.stop - item.start|
          step   := some item.step
          n_pts  := some (roundHalfEven (|item.stop - item.start| / item.step) + 1) }) ∧
    get_reevaluated_step_item scenarioItem false "" "" "" =
      { range_type := "Sweep", start := some 1, stop := some 5, center := some 3,
        span := some 4, step := some 1, n_pts := some 5 } := by
  refine ⟨fun hst => ?_, fun hst => ?_, ?_⟩
  · simp [get_reevaluated_step_item, hr, hst, hnpts, truncToInt_intCast]
  · simp [get_reevaluated_step_item, hr, hst]
  · simp [get_reevaluated_step_item, scenarioItem, truncToInt, roundHalfEven]
    norm_num

/-- Witness for C1 at the §8 scenario record (`n = 5`). -/
theorem C1_step_reevaluation_witness :
    scenarioItem.range_type = "Start - Stop" ∧ (2:ℤ) ≤ 5 ∧
      scenarioItem.n_pts = ((5:ℤ) : ℚ) ∧
      (scenarioItem.step_type = "Fixed # of pts" →
        get_reevaluated_step_item scenarioItem false "" "" "" =
          { range_type := "Sweep",
            start  := some scenarioItem.start
            stop   := some scenarioItem.stop
            center := some ((scenarioItem.start + scenarioItem.stop) / 2)
            span   := some |scenarioItem.stop - scenarioItem.start|
            step   := some (|scenarioItem.stop - scenarioItem.start| / (((5:ℤ) : ℚ) - 1))
            n_pts  := some 5 }) :=
  ⟨rfl, by norm_num, by norm_num [scenarioItem],
    (C1_step_reevaluation scenarioItem "" "" "" rfl 5 (by norm_num)
      (by norm_num [scenarioItem])).1⟩

/-! ## Enum decoding in `LabberHDF.get_stepconfig_by_index` (`core.py`, lines 192-204)

The source looks the raw value up in
`enum_mapping = {"range_type": {0: "Single", 1: "Start - Stop", 2: "Center - Span"},
"step_type": {0: "Fixed step", 1: "Fixed # of pts"}}`; a value absent from
the inner dict raises `KeyError(value)`, whose message is the offending
key alone. -/

def enum_mapping_range_type : List (ℤ × String) :=
  [(0, "Single"), (1, "Start - Stop"), (2, "Center - Span")]

def enum_mapping_step_type : List (ℤ × String) :=
  [(0, "Fixed step"), (1, "Fixed # of pts")]

/-- Python dict lookup `d[v]`: `KeyError(v)` carries only the key.
The raw value is a number read as `float`; equality with the integer dict
keys is numeric equality. -/
def dictLookup (m : List (ℤ × String)) (v : ℚ) : Except String String :=
  match m.find? (fun p => (p.1 : ℚ) == v) with
  | some p => .ok p.2
  | none => .error (toString v)

/-- The enum-conversion loop over the keys `range_type`, `step_type` of
`get_stepconfig_by_index`, returning the two decoded strings. -/
def convertEnums (range_type_raw step_type_raw : ℚ) :
    Except String (String × String) :=
  match dictLookup enum_mapping_range_type range_type_raw with
  | .error e => .error e
  | .ok rt =>
    match dictLookup enum_mapping_step_type step_type_raw with
    | .error e => .error e
    | .ok st => .ok (rt, st)

/-- Whether `pat` occurs as a contiguous substring of `s`. -/
def containsSub (s pat : List Char) : Bool :=
  (List.range (s.length + 1)).any (fun i => pat.isPrefixOf (s.drop i))

/-! ## Sweep discovery: `VNAxANY._get_info` (`vnaxany.py`, lines 104-122;
identical in `SAxANY.py`, lines 89-107)

The loop collects every step-config record whose reevaluated
`range_type` is `Sweep`; zero matches record `sweep - name = None`, one
match is returned, and more raise
an exception whose message interpolates only the number of matches. -/

/-- The fields the single-sweep branch copies into `info`. -/
structure SweepInfoFields where
  name : String
  start : Option ℚ
  stop : Option ℚ
  step : Option ℚ
deriving DecidableEq

def findSweepings (records : List (String × StepResult)) :
    List (String × StepResult) :=
  records.filter (fun r => r.2.range_type == "Sweep")

/-- The sweep-discovery part of `_get_info`: `.ok none` when no channel
sweeps, `.ok (some fields)` for exactly one, and the exception
text for two or more. -/
def getInfoSweep (records : List (String × StepResult)) :
    Except String (Option SweepInfoFields) :=
  let sweepings := findSweepings records
  if sweepings.length = 0 then .ok none
  else if sweepings.length = 1 then
    match sweepings with
    | (nm, rec) :: _ => .ok (some ⟨nm, rec.start, rec.stop, rec.step⟩)
    | [] => .ok none
  else
    .error ("Only support 1 sweeping quantity, however there are "
      ++ toString sweepings.length ++ ".")

/-- A reevaluated record whose `range_type` is `Sweep`, as the
discovery loop sees it. -/
def sweepRec : StepResult := { range_type := "Sweep" }

/-- Two step-config channels that both resolve to `Sweep`. -/
def recordsTwoSweeps : List (String × StepResult) :=
  [("chan1", sweepRec), ("chan2", sweepRec)]

/-- C3, counterexample: with two `Sweep` records named `chan1` and
`chan2`, discovery raises, but the message reports only the count: neither
channel name occurs in it, refuting "lists all matching channel names". -/
theorem C3_ambiguous_sweep_cex :
    getInfoSweep recordsTwoSweeps =
      .error "Only support 1 sweeping quantity, however there are 2." ∧
    containsSub "Only support 1 sweeping quantity, however there are 2.".toList
      "chan1".toList = false ∧
    containsSub "Only support 1 sweeping quantity, however there are 2.".toList
      "chan2".toList = false :=
  ⟨rfl, by decide, by decide⟩

/-- C3, amended: discovery over the decoded records returns `none`
for zero `Sweep` records and, for exactly one, its name and parameters
for exactly one; for two or more it fails, with an error message that
reports the *number* of sweeping channels rather than their names. -/
theorem C3_sweep_discovery (records : List (String × StepResult)) :
    getInfoSweep records =
      match findSweepings records with
      | [] => .ok none
      | [(nm, rec)] => .ok (some ⟨nm, rec.start, rec.stop, rec.step⟩)
      | l => .error ("Only support 1 sweeping quantity, however there are "
          ++ toString l.length ++ ".") := by
  rcases h : findSweepings records with _ | ⟨⟨nm, rec⟩, _ | ⟨b, t⟩⟩ <;>
    simp [getInfoSweep, h]

/-- C7, counterexample: an out-of-range `range_type` raw value `3`
makes decoding fail, but with a bare key-lookup error whose message is the
raw value only: the field name `range_type` does not occur in it, refuting
"naming the offending field". -/
theorem C7_invalid_enum_cex :
    convertEnums 3 0 = .error "3" ∧
    containsSub "3".toList "range_type".toList = false :=
  ⟨rfl, by decide⟩

/-- C7, amended: a raw record with an enum value outside the known
encodings — the `range_type` raw value not in the range mapping, or the
`step_type` raw value not in the step mapping — makes the enum conversion
of `get_stepconfig_by_index` fail with a key-lookup error that carries
(only) the invalid raw value: the `range_type` value when that one is
invalid, else the `step_type` value; the field name is never part of the
error. -/
theorem C7_invalid_enum (rt st : ℚ)
    (h : (∀ p ∈ enum_mapping_range_type, (p.1 : ℚ) ≠ rt) ∨
      (∀ p ∈ enum_mapping_step_type, (p.1 : ℚ) ≠ st)) :
    convertEnums rt st =
      .error (if ∀ p ∈ enum_mapping_range_type, (p.1 : ℚ) ≠ rt
        then toString rt else toString st) := by
  by_cases hrt : ∀ p ∈ enum_mapping_range_type, (p.1 : ℚ) ≠ rt
  · have hf : enum_mapping_range_type.find? (fun p => (p.1 : ℚ) == rt) = none := by
      rw [List.find?_eq_none]
      intro p hp
      simpa using hrt p hp
    simp [convertEnums, dictLookup, hf]
    rw [if_pos hrt]
  · have hst : ∀ p ∈ enum_mapping_step_type, (p.1 : ℚ) ≠ st := h.resolve_left hrt
    have hs : (enum_mapping_range_type.find? (fun p => (p.1 : ℚ) == rt)).isSome := by
      rw [List.find?_isSome]
      push_neg at hrt
      obtain ⟨p, hp, hpe⟩ := hrt
      exact ⟨p, hp, by simpa using hpe⟩
    have hf2 : enum_mapping_step_type.find? (fun p => (p.1 : ℚ) == st) = none := by
      rw [List.find?_eq_none]
      intro p hp
      simpa using hst p hp
    rcases hfind : enum_mapping_range_type.find? (fun p => (p.1 : ℚ) == rt) with _ | q
    · rw [hfind] at hs
      simp at hs
    · simp [convertEnums, dictLookup, hfind, hf2]
      rw [if_neg hrt]

/-- Witness for C7, applying the theorem both at an invalid `range_type`
raw value (`3`, with a valid `step_type` `0`) and at an invalid
`step_type` raw value (`5`, with a valid `range_type` `1`). -/
theorem C7_invalid_enum_witness :
    ((∀ p ∈ enum_mapping_range_type, (p.1 : ℚ) ≠ 3) ∨
      (∀ p ∈ enum_mapping_step_type, (p.1 : ℚ) ≠ (0:ℚ))) ∧
    convertEnums 3 0 =
      .error (if ∀ p ∈ enum_mapping_range_type, (p.1 : ℚ) ≠ 3
        then toString (3:ℚ) else toString (0:ℚ)) ∧
    ((∀ p ∈ enum_mapping_range_type, (p.1 : ℚ) ≠ 1) ∨
      (∀ p ∈ enum_mapping_step_type, (p.1 : ℚ) ≠ (5:ℚ))) ∧
    convertEnums 1 5 =
      .error (if ∀ p ∈ enum_mapping_range_type, (p.1 : ℚ) ≠ 1
        then toString (1:ℚ) else toString (5:ℚ)) :=
  ⟨Or.inl (by norm_num [enum_mapping_range_type]),
    C7_invalid_enum 3 0 (Or.inl (by norm_num [enum_mapping_range_type])),
    Or.inr (by norm_num [enum_mapping_step_type]),
    C7_invalid_enum 1 5 (Or.inr (by norm_num [enum_mapping_step_type]))⟩

/-! ## Value-to-index mapping (`vnaxany.py`, lines 188-209; identical in
`vnaxdc.py` (`i2ind`/`f2ind`) and `SAxANY.py`) -/

/-- Model of `VNAxANY.s2ind` for the swept axis, reading the info keys
`sweep - start`, `sweep - stop`, `sweep - step`; out of range when the
value is below both or above both endpoints, else
`int(round((s_value - s0)/steps))`. -/
def s2ind (s0 s1 steps : ℚ) (s_value : ℚ) : Except String ℤ :=
  if (s_value < s0 ∧ s_value < s1) ∨ (s_value > s0 ∧ s_value > s1) then
    .error ("specified value `" ++ toString s_value ++ "` is out of range")
  else
    .ok (roundHalfEven ((s_value - s0) / steps))

/-- Model of `VNAxANY.f2ind` for the fixed (sampling) axis.  Note the source
recomputes the step as `stepf = (f1 - f0) / nf`, dividing by the number
of points `nf`, not `nf - 1`. -/
def f2ind (f0 f1 : ℚ) (nf : ℤ) (freq : ℚ) : Except String ℤ :=
  let stepf := (f1 - f0) / (nf : ℚ)
  if (freq < f0 ∧ freq < f1) ∨ (freq > f0 ∧ freq > f1) then
    .error ("specified frequency `" ++ toString freq ++ "` is out of range")
  else
    .ok (roundHalfEven ((freq - f0) / stepf))

/-- The value of the fixed axis at index `k`: the axis array is
`np.linspace(startf, stopf, f_pts)`, whose `k`-th element is
`startf + k * (stopf - startf)/(f_pts - 1)`. -/
def fixedAxisValue (f0 f1 : ℚ) (nf : ℤ) (k : ℤ) : ℚ :=
  f0 + k * ((f1 - f0) / ((nf : ℚ) - 1))

/-- C2, failing input: on the axis `start = 1, stop = 5, n_pts = 5`
(axis step `1`), the value at index `k = 4` is `5`, yet `f2ind` returns
`5`, not `4`: the source divides by `n_pts` instead of `n_pts - 1` when it
recomputes the step, so `f2ind` is not a left inverse of the axis
construction, and it disagrees with `round((v - start)/step)` for the
axis step `step = (stop - start)/(n_pts - 1)` (which would give `4`). -/
theorem C2_f2ind_eval :
    fixedAxisValue 1 5 5 4 = 5 ∧
    f2ind 1 5 5 5 = .ok 5 ∧
    roundHalfEven ((5 - 1) / ((5 - 1) / (5 - 1 : ℚ))) = 4 := by
  refine ⟨by norm_num [fixedAxisValue], ?_, by norm_num [roundHalfEven]⟩
  have : ¬(((5:ℚ) < 1 ∧ (5:ℚ) < 5) ∨ ((5:ℚ) > 1 ∧ (5:ℚ) > 5)) := by norm_num
  simp only [f2ind, if_neg this]
  norm_num [roundHalfEven]

/-! ## Orientation normalization: `VNAxANY._get_flip_func`
(`vnaxany.py`, lines 343-370; identical in `vnaxdc.py` and `SAxANY.py`)

`np.flip(data, axis=0)` on a list-of-rows matrix is `List.reverse`,
`np.flip(data, axis=1)` reverses every row, and `.T` is
`List.transpose`. -/

def flipfunc (fflip sflip transpose : Bool) (data : List (List α)) :
    List (List α) :=
  let d1 :=
    if transpose then
      let a := if ¬fflip then data.reverse else data
      if sflip then a.map List.reverse else a
    else data
  if ¬transpose then
    let a := d1.transpose
    let b := if fflip then a.map List.reverse else a
    if ¬sflip then b.reverse else b
  else d1

/-! ## Cut queries: `VNAxANY.get_traces_cut` (`vnaxany.py`, lines 211-278;
identical modulo naming in `vnaxdc.py` and `SAxANY.py`) -/

/-- The `scut`/`fcut` argument: `None`, a number, or a `[lower, upper]`
pair. -/
inductive Cut where
  | whole : Cut
  | val : ℚ → Cut
  | pair : ℚ → ℚ → Cut

/-- A NumPy accessor as built by `get_traces_cut`: the full slice
`slice(None, None)`, a single integer index, or `slice(a, b)`. -/
inductive Acc where
  | full : Acc
  | one : ℤ → Acc
  | rng : ℤ → ℤ → Acc
deriving DecidableEq

/-- The `info` entries `get_traces_cut` consults, together with the two
flip flags computed in `__init__`. -/
structure VNAInfo where
  sweepName : Option String
  s0 : ℚ      -- info key: sweep - start
  s1 : ℚ      -- info key: sweep - stop
  sstep : ℚ   -- info key: sweep - step
  f0 : ℚ      -- info key: VNA - start frequency
  f1 : ℚ      -- info key: VNA - stop frequency
  nf : ℤ      -- info key: VNA - number of points
  ntrc : ℤ    -- info key: VNA - number of traces
  fflip : Bool
  sflip : Bool

/-- The swept-axis accessor of `get_traces_cut` (lines 236-252): a scalar
cut is mapped through `s2ind` and then reflected to the storage index
`(ntrc - 1) - s_ind`; a pair is mapped the same way and reordered so the
lower storage index comes first. -/
def sAccOf (info : VNAInfo) (scut : Cut) : Except String Acc :=
  match scut with
  | .whole => .ok .full
  | .val v =>
    match s2ind info.s0 info.s1 info.sstep v with
    | .error e => .error e
    | .ok i => .ok (.one ((info.ntrc - 1) - i))
  | .pair v0 v1 =>
    match s2ind info.s0 info.s1 info.sstep v0 with
    | .error e => .error e
    | .ok i0 =>
      match s2ind info.s0 info.s1 info.sstep v1 with
      | .error e => .error e
      | .ok i1 =>
        let a0 := (info.ntrc - 1) - i0
        let a1 := (info.ntrc - 1) - i1
        if a0 > a1 then .ok (.rng a1 a0) else .ok (.rng a0 a1)

/-- The fixed-axis accessor of `get_traces_cut` (lines 254-267): `f2ind`
directly, with a pair reordered ascending. -/
def fAccOf (info : VNAInfo) (fcut : Cut) : Except String Acc :=
  match fcut with
  | .whole => .ok .full
  | .val v =>
    match f2ind info.f0 info.f1 info.nf v with
    | .error e => .error e
    | .ok i => .ok (.one i)
  | .pair v0 v1 =>
    match f2ind info.f0 info.f1 info.nf v0 with
    | .error e => .error e
    | .ok i0 =>
      match f2ind info.f0 info.f1 info.nf v1 with
      | .error e => .error e
      | .ok i1 =>
        if i0 > i1 then .ok (.rng i1 i0) else .ok (.rng i0 i1)

/-- Applying an accessor along one axis.  `xs[i]` drops a dimension in
NumPy; it is modelled as the one-element selection at `i`.  The claims
only exercise non-negative indices, where `Int.toNat` is the identity. -/
def applyAcc (acc : Acc) (xs : List α) : List α :=
  match acc with
  | .full => xs
  | .one i => ((xs.drop i.toNat).take 1)
  | .rng a b => ((xs.drop a.toNat).take (b.toNat - a.toNat))

/-- An experiment object as far as `get_traces_cut` reads it:
`self.info`, the axis arrays built in `__init__`, and `self.vna_traces`
(stored with the sampling axis first, the sweep axis second). -/
structure VNAObj where
  info : VNAInfo
  freq_sweep : List ℚ
  s_sweep : List ℚ
  vna_traces : List (List ℚ)

/-- Model of `VNAxANY.get_traces_cut` (lines 211-278): fails without a swept
channel; builds both accessors (each `s2ind`/`f2ind` failure
propagates); returns the cut frequency axis (`np.flip`ped when `_fflip`),
the cut swept axis (`np.flip`ped when `_sflip` is false), and the accessed
rows/columns of `flipfunc(vna_traces)` with `transpose=False`. -/
def get_traces_cut (ob : VNAObj) (scut fcut : Cut) :
    Except String (List ℚ × List ℚ × List (List ℚ)) :=
  if ob.info.sweepName = none then
    .error "get_traces_cut not supported for data without sweep quantity."
  else
    match sAccOf ob.info scut with
    | .error e => .error e
    | .ok sa =>
      match fAccOf ob.info fcut with
      | .error e => .error e
      | .ok fa =>
        let cutted_freq :=
          if ob.info.fflip then applyAcc fa ob.freq_sweep.reverse
          else applyAcc fa ob.freq_sweep
        let cutted_s :=
          if ¬ob.info.sflip then applyAcc sa ob.s_sweep.reverse
          else applyAcc sa ob.s_sweep
        let flipped := flipfunc ob.info.fflip ob.info.sflip false ob.vna_traces
        .ok (cutted_freq, cutted_s,
          (applyAcc sa flipped).map (fun row => applyAcc fa row))

/-- C4: for a swept-axis value `v` in the closed interval
`[min(start,stop), max(start,stop)]`, the accessor `get_traces_cut`
builds for a scalar swept cut is the storage index
`(n_pts - 1) - round((v - start)/step)` where `n_pts` is
`VNA - # of traces` — whatever the value `b` of the sweep-direction
flag `_sflip`. -/
theorem C4_swept_storage_index (info : VNAInfo) (v : ℚ) (b : Bool)
    (h1 : min info.s0 info.s1 ≤ v) (h2 : v ≤ max info.s0 info.s1) :
    sAccOf { info with sflip := b } (Cut.val v) =
      .ok (.one ((info.ntrc - 1) - roundHalfEven ((v - info.s0) / info.sstep))) := by
  have hcond : ¬((v < info.s0 ∧ v < info.s1) ∨ (v > info.s0 ∧ v > info.s1)) := by
    rintro (⟨ha, hb⟩ | ⟨ha, hb⟩)
    · exact absurd h1 (not_le.mpr (lt_min ha hb))
    · exact absurd h2 (not_le.mpr (max_lt ha hb))
  simp [sAccOf, s2ind, if_neg hcond]

/-- A concrete `info` record: swept axis `0..3` in steps of `1`, four
acquired traces. -/
def infoC4 : VNAInfo :=
  { sweepName := some "s", s0 := 0, s1 := 3, sstep := 1,
    f0 := 0, f1 := 1, nf := 2, ntrc := 4, fflip := false, sflip := true }

/-- Witness for C4 at `v = 2` on `infoC4` (with `_sflip = true`). -/
theorem C4_swept_storage_index_witness :
    min infoC4.s0 infoC4.s1 ≤ 2 ∧ (2:ℚ) ≤ max infoC4.s0 infoC4.s1 ∧
      sAccOf { infoC4 with sflip := true } (Cut.val 2) =
        .ok (.one ((infoC4.ntrc - 1) -
          roundHalfEven ((2 - infoC4.s0) / infoC4.sstep))) :=
  ⟨by norm_num [infoC4], by norm_num [infoC4],
    C4_swept_storage_index infoC4 2 true (by norm_num [infoC4])
      (by norm_num [infoC4])⟩

/-- The experiment object for the C5 counterexample: swept axis `0..3`
(step `1`, ascending, so `_sflip = false`), two frequency points, and the
raw trace matrix `[[0,1,2,3],[4,5,6,7]]` (sampling axis first). -/
def obC5 : VNAObj :=
  { info := { sweepName := some "s", s0 := 0, s1 := 3, sstep := 1,
              f0 := 0, f1 := 1, nf := 2, ntrc := 4,
              fflip := false, sflip := false },
    freq_sweep := [0, 1], s_sweep := [0, 1, 2, 3],
    vna_traces := [[0, 1, 2, 3], [4, 5, 6, 7]] }

/-- C5, counterexample: for the two-element cut `[0, 3]` with both
endpoints in range, the endpoints map to storage indices `3` and `0`;
the selector is `slice(0, 3)`, and the returned matrix
`[[3,7],[2,6],[1,5]]` does not contain the row `[0,4]` that sits at
the mapped storage index `3` of one endpoint: the row of the endpoint with the
higher storage index is missing, refuting the claim that the rows at the mapped
indices of both endpoints are included. -/
theorem C5_cut_endpoints_cex :
    get_traces_cut obC5 (Cut.pair 0 3) Cut.whole =
      .ok ([0, 1], [3, 2, 1], [[3, 7], [2, 6], [1, 5]]) ∧
    sAccOf obC5.info (Cut.pair 0 3) = .ok (Acc.rng 0 3) ∧
    (flipfunc false false false obC5.vna_traces)[3]? = some [0, 4] ∧
    [(0:ℚ), 4] ∉ [[(3:ℚ), 7], [2, 6], [1, 5]] := by
  refine ⟨?_, ?_, ?_, by norm_num⟩
  · norm_num [get_traces_cut, obC5, sAccOf, fAccOf, s2ind, f2ind,
      roundHalfEven, applyAcc, flipfunc]
    rfl
  · norm_num [obC5, sAccOf, s2ind, roundHalfEven]
  · norm_num [obC5, flipfunc]
    rfl

/-- C5, amended: for a two-element cut with both endpoints resolving
through `s2ind` (to non-negative storage indices), the selector is the
*half-open* range `[lo, hi)` over the reordered mapped storage indices
`lo = min, hi = max`: the returned matrix consists of rows `lo, …, hi-1`
of the flipped trace matrix — row `j` of the result is storage row
`lo + j` — so the endpoint mapping to `lo` contributes its row while the
row at the index `hi` of the other endpoint is excluded. -/
theorem C5_cut_halfopen (ob : VNAObj) (nm : String) (v0 v1 : ℚ) (i0 i1 : ℤ)
    (hnm : ob.info.sweepName = some nm)
    (h0 : s2ind ob.info.s0 ob.info.s1 ob.info.sstep v0 = .ok i0)
    (h1 : s2ind ob.info.s0 ob.info.s1 ob.info.sstep v1 = .ok i1)
    (hge0 : 0 ≤ (ob.info.ntrc - 1) - i0) (hge1 : 0 ≤ (ob.info.ntrc - 1) - i1) :
    (get_traces_cut ob (Cut.pair v0 v1) Cut.whole =
      .ok (if ob.info.fflip then ob.freq_sweep.reverse else ob.freq_sweep,
        (((if ¬ob.info.sflip then ob.s_sweep.reverse else ob.s_sweep).drop
            (min ((ob.info.ntrc - 1) - i0) ((ob.info.ntrc - 1) - i1)).toNat).take
          ((max ((ob.info.ntrc - 1) - i0) ((ob.info.ntrc - 1) - i1)).toNat -
            (min ((ob.info.ntrc - 1) - i0) ((ob.info.ntrc - 1) - i1)).toNat)),
        ((flipfunc ob.info.fflip ob.info.sflip false ob.vna_traces).drop
            (min ((ob.info.ntrc - 1) - i0) ((ob.info.ntrc - 1) - i1)).toNat).take
          ((max ((ob.info.ntrc - 1) - i0) ((ob.info.ntrc - 1) - i1)).toNat -
            (min ((ob.info.ntrc - 1) - i0) ((ob.info.ntrc - 1) - i1)).toNat))) ∧
    ∀ (l : List (List ℚ)) (lo k j : ℕ), j < k →
      ((l.drop lo).take k)[j]? = l[lo + j]? := by
  have hmem : ∀ (l : List (List ℚ)) (lo k j : ℕ), j < k →
      ((l.drop lo).take k)[j]? = l[lo + j]? := by
    intro l lo k j hj
    rw [List.getElem?_take_of_lt hj, List.getElem?_drop]
  refine ⟨?_, hmem⟩
  have hnone : ¬ob.info.sweepName = none := by simp [hnm]
  rcases le_or_lt ((ob.info.ntrc - 1) - i0) ((ob.info.ntrc - 1) - i1) with h | h
  · simp [get_traces_cut, hnone, sAccOf, fAccOf, h0, h1, not_lt.mpr h,
      applyAcc, min_eq_left h, max_eq_right h]
    cases ob.info.sflip <;> simp
  · simp [get_traces_cut, hnone, sAccOf, fAccOf, h0, h1, h,
      applyAcc, min_eq_right h.le, max_eq_left h.le]
    cases ob.info.sflip <;> simp

/-- Witness for C5 (amended) on `obC5` with the cut `[0, 3]`
(`i0 = 0`, `i1 = 3`). -/
theorem C5_cut_halfopen_witness :
    obC5.info.sweepName = some "s" ∧
    s2ind obC5.info.s0 obC5.info.s1 obC5.info.sstep 0 = .ok 0 ∧
    s2ind obC5.info.s0 obC5.info.s1 obC5.info.sstep 3 = .ok 3 ∧
    (0 ≤ (obC5.info.ntrc - 1) - 0 ∧ 0 ≤ (obC5.info.ntrc - 1) - 3) ∧
    ((get_traces_cut obC5 (Cut.pair 0 3) Cut.whole =
      .ok (if obC5.info.fflip then obC5.freq_sweep.reverse else obC5.freq_sweep,
        (((if ¬obC5.info.sflip then obC5.s_sweep.reverse else obC5.s_sweep).drop
            (min ((obC5.info.ntrc - 1) - 0) ((obC5.info.ntrc - 1) - 3)).toNat).take
          ((max ((obC5.info.ntrc - 1) - 0) ((obC5.info.ntrc - 1) - 3)).toNat -
            (min ((obC5.info.ntrc - 1) - 0) ((obC5.info.ntrc - 1) - 3)).toNat)),
        ((flipfunc obC5.info.fflip obC5.info.sflip false obC5.vna_traces).drop
            (min ((obC5.info.ntrc - 1) - 0) ((obC5.info.ntrc - 1) - 3)).toNat).take
          ((max ((obC5.info.ntrc - 1) - 0) ((obC5.info.ntrc - 1) - 3)).toNat -
            (min ((obC5.info.ntrc - 1) - 0) ((obC5.info.ntrc - 1) - 3)).toNat))) ∧
      ∀ (l : List (List ℚ)) (lo k j : ℕ), j < k →
        ((l.drop lo).take k)[j]? = l[lo + j]?) :=
  ⟨rfl, by norm_num [obC5, s2ind, roundHalfEven],
    by norm_num [obC5, s2ind, roundHalfEven],
    ⟨by norm_num [obC5], by norm_num [obC5]⟩,
    C5_cut_halfopen obC5 "s" 0 3 0 3 rfl
      (by norm_num [obC5, s2ind, roundHalfEven])
      (by norm_num [obC5, s2ind, roundHalfEven])
      (by norm_num [obC5]) (by norm_num [obC5])⟩

/-- A concrete 4×10 trace matrix with pairwise-distinct entries. -/
def M6 : List (List ℕ) :=
  [[0, 1, 2, 3, 4, 5, 6, 7, 8, 9],
   [10, 11, 12, 13, 14, 15, 16, 17, 18, 19],
   [20, 21, 22, 23, 24, 25, 26, 27, 28, 29],
   [30, 31, 32, 33, 34, 35, 36, 37, 38, 39]]

/-- C6, counterexample: on a concrete 4×10 matrix with
`_fflip = false` (axis_flip) and `_sflip = true` (sweep_flip), the
`transpose=False` flip function returns the *transpose* of its input —
the `not transpose` branch of `_get_flip_func` always applies `.T`, and
with these flags applies no reversal at all — which is not the input with
its rows reversed and columns untouched, refuting the claimed rule
table.  (The `transpose=True` case reverses both axes of the input
without swapping them, likewise not the claimed "swap then reverse the
former rows".) -/
theorem C6_flip_scenario_cex :
    flipfunc false true false M6 = M6.transpose ∧
    M6.transpose ≠ M6.reverse ∧
    flipfunc false true true M6 = M6.reverse.map List.reverse ∧
    M6.reverse.map List.reverse ≠ M6.transpose.map List.reverse := by
  exact ⟨rfl, by decide, rfl, by decide⟩

/-- C6, amended: for any trace matrix with `_fflip = false` and
`_sflip = true`, the flip function with `transpose=False` returns the
transposed matrix with nothing reversed, and with `transpose=True` it
returns the matrix un-transposed with both its rows reversed and each
row reversed. -/
theorem C6_flip_rules (M : List (List α)) :
    flipfunc false true false M = M.transpose ∧
    flipfunc false true true M = M.reverse.map List.reverse := by
  constructor <;> simp [flipfunc]

/-- A concrete loaded experiment for the C9 witness: descending sweep
(`_sflip = true`), ascending frequency axis. -/
def obC9 : VNAObj :=
  { info := { sweepName := some "s", s0 := 3, s1 := 0, sstep := -1,
              f0 := 0, f1 := 1, nf := 2, ntrc := 4,
              fflip := false, sflip := true },
    freq_sweep := [0, 1], s_sweep := [3, 2, 1, 0],
    vna_traces := [[0, 1, 2, 3], [4, 5, 6, 7]] }

/-- C9: with both cuts `None`, `get_traces_cut` returns the swept
axis in raw storage order: the swept-axis array is reversed exactly when
`_sflip` is false (sweep acquired ascending) and returned unreversed when
`_sflip` is true; the sampling-axis array is reversed exactly when
`_fflip` is true. -/
theorem C9_no_cut_storage_order (ob : VNAObj) (nm : String)
    (h : ob.info.sweepName = some nm) :
    get_traces_cut ob Cut.whole Cut.whole =
      .ok (if ob.info.fflip then ob.freq_sweep.reverse else ob.freq_sweep,
        if ob.info.sflip then ob.s_sweep else ob.s_sweep.reverse,
        flipfunc ob.info.fflip ob.info.sflip false ob.vna_traces) := by
  have hnone : ¬ob.info.sweepName = none := by simp [h]
  cases hs : ob.info.sflip <;>
    simp [get_traces_cut, hnone, sAccOf, fAccOf, applyAcc, hs]

/-- Witness for C9 on `obC9` (`_sflip = true`, `_fflip = false`). -/
theorem C9_no_cut_storage_order_witness :
    obC9.info.sweepName = some "s" ∧
      get_traces_cut obC9 Cut.whole Cut.whole =
        .ok (if obC9.info.fflip then obC9.freq_sweep.reverse else obC9.freq_sweep,
          if obC9.info.sflip then obC9.s_sweep else obC9.s_sweep.reverse,
          flipfunc obC9.info.fflip obC9.info.sflip false obC9.vna_traces) :=
  ⟨rfl, C9_no_cut_storage_order obC9 "s" rfl⟩

/-! ## Background normalization: `VNAxANY.debackground` (`vnaxany.py`,
lines 142-186; identical in `vnaxdc.py`)

The trace arrays are 2-d NumPy arrays; elementwise operations broadcast.
A 2-d array is modelled by its shape and entry function, and the NumPy
broadcasting rule by `broadcastDim`: dimensions are compatible when they
are equal or one of them is `1` (a size-1 axis is repeated). -/

structure NMat where
  rows : ℕ
  cols : ℕ
  entry : ℕ → ℕ → ℚ

def broadcastDim (a b : ℕ) : Option ℕ :=
  if a = b then some a
  else if a = 1 then some b
  else if b = 1 then some a
  else none

/-- An elementwise binary NumPy operation on 2-d arrays: `none` is the
`ValueError: operands could not be broadcast together`. -/
def bcastOp (op : ℚ → ℚ → ℚ) (A B : NMat) : Option NMat :=
  match broadcastDim A.rows B.rows, broadcastDim A.cols B.cols with
  | some r, some c =>
    some ⟨r, c, fun i j =>
      op (A.entry (if A.rows = 1 then 0 else i) (if A.cols = 1 then 0 else j))
        (B.entry (if B.rows = 1 then 0 else i) (if B.cols = 1 then 0 else j))⟩
  | _, _ => none

/-- Model of `np.ones_like(A)`. -/
def onesLike (A : NMat) : NMat := ⟨A.rows, A.cols, fun _ _ => 1⟩

/-- Scalar broadcast `1 + A`. -/
def scalarAddOne (A : NMat) : NMat := ⟨A.rows, A.cols, fun i j => 1 + A.entry i j⟩

/-- The computational body of `debackground` (`create_file=False`):
`extended_bg = bg_trace * np.ones_like(self.vna_traces)`, then the mode
dispatch.  `trace` is the info entry `VNA - trace` (e.g. `"S21"`), whose
characters 1 and 2 decide `is_snn`.  A mode other than `-` and `/`
leaves `debg_vna_traces` unassigned and `return debg_vna_traces` raises
`UnboundLocalError`. -/
def debackgroundCore (vna_traces : NMat) (trace : String) (bg_trace : NMat)
    (mode : String) : Except String NMat :=
  match bcastOp (· * ·) bg_trace (onesLike vna_traces) with
  | none => .error "operands could not be broadcast together"
  | some extended_bg =>
    if mode = "-" then
      let is_snn := trace.toList.get? 1 == trace.toList.get? 2
      if is_snn then
        match bcastOp (· - ·) vna_traces extended_bg with
        | some r => .ok r
        | none => .error "operands could not be broadcast together"
      else
        match bcastOp (· - ·) (scalarAddOne vna_traces) extended_bg with
        | some r => .ok r
        | none => .error "operands could not be broadcast together"
    else if mode = "/" then
      match bcastOp (· / ·) vna_traces extended_bg with
      | some r => .ok r
      | none => .error "operands could not be broadcast together"
    else
      .error "local variable referenced before assignment"

/-- The attributes of the experiment object that `debackground` touches.
The method reads `self.vna_traces` and `self.info` and assigns neither
(with `create_file=False` it performs no write at all), so the
state-passing translation returns the state unchanged. -/
structure DebgObj where
  vna_traces : NMat
  trace : String

/-- Model of `VNAxANY.debackground` as a function of the object state (the
traces of the background file are passed as the already-loaded matrix). -/
def debackground (ob : DebgObj) (bg_trace : NMat) (mode : String) :
    Except String NMat × DebgObj :=
  (debackgroundCore ob.vna_traces ob.trace bg_trace mode, ob)

/-- A 4×10 data matrix. -/
def dataM : NMat := ⟨4, 10, fun i j => (i : ℚ) * 10 + j⟩

/-- A 4×1 background matrix: same sample count, only one acquired
trace. -/
def bgM1 : NMat := ⟨4, 1, fun i _ => (i : ℚ) + 1⟩

/-- A 3×10 background matrix: not broadcastable against 4×10. -/
def bgM3 : NMat := ⟨3, 10, fun _ _ => 1⟩

/-- C8, counterexample: the 4×10 data and the 4×1 background differ
in their sweep (trace) count, yet `debackground` in ratio mode succeeds —
`bg_trace * np.ones_like(data)` broadcasts the size-1 axis instead of
failing — refuting the claim that every shape
difference fails with ShapeMismatch. -/
theorem C8_debackground_cex :
    dataM.cols ≠ bgM1.cols ∧
    (debackgroundCore dataM "S21" bgM1 "/").isOk = true := by
  exact ⟨by norm_num [dataM, bgM1], rfl⟩

/-- A dimension that broadcasts against another also broadcasts against
their common broadcast result. -/
theorem broadcastDim_compat {a b c : ℕ} (h : broadcastDim a b = some c) :
    ∃ d, broadcastDim b c = some d := by
  unfold broadcastDim at h ⊢
  by_cases hab : a = b <;> by_cases ha1 : a = 1 <;> by_cases hb1 : b = 1 <;>
    simp_all

/-- An elementwise operation succeeds as soon as both shape pairs
broadcast. -/
theorem bcastOp_isSome_of (op : ℚ → ℚ → ℚ) (A B : NMat)
    (h1 : ∃ d, broadcastDim A.rows B.rows = some d)
    (h2 : ∃ d, broadcastDim A.cols B.cols = some d) :
    ∃ M, bcastOp op A B = some M := by
  obtain ⟨r, hr⟩ := h1
  obtain ⟨c, hc⟩ := h2
  exact ⟨⟨r, c, fun i j =>
      op (A.entry (if A.rows = 1 then 0 else i) (if A.cols = 1 then 0 else j))
        (B.entry (if B.rows = 1 then 0 else i) (if B.cols = 1 then 0 else j))⟩,
    by simp [bcastOp, hr, hc]⟩

/-- The shape of a successful elementwise operation is the broadcast of
the operand shapes. -/
theorem bcastOp_dims {op : ℚ → ℚ → ℚ} {A B M : NMat}
    (h : bcastOp op A B = some M) :
    broadcastDim A.rows B.rows = some M.rows ∧
      broadcastDim A.cols B.cols = some M.cols := by
  unfold bcastOp at h
  rcases hr : broadcastDim A.rows B.rows with _ | r <;> rw [hr] at h
  · simp at h
  · rcases hc : broadcastDim A.cols B.cols with _ | c <;> rw [hc] at h
    · simp at h
    · simp at h
      rw [← h]
      exact ⟨rfl, rfl⟩

/-- C8, amended: `debackground` fails (for every mode, with the
broadcast error) exactly when NumPy cannot broadcast the background
shape against the data shape, i.e. when some dimension differs with
neither count equal to 1; for either supported mode, a
differing-but-broadcastable shape pair is silently accepted and produces
a result instead of failing. -/
theorem C8_debackground_shape (ob : DebgObj) (bg : NMat) (mode : String) :
    ((debackground ob bg mode).1 =
        .error "operands could not be broadcast together" ↔
      broadcastDim bg.rows ob.vna_traces.rows = none ∨
        broadcastDim bg.cols ob.vna_traces.cols = none) ∧
    (broadcastDim bg.rows ob.vna_traces.rows ≠ none →
      broadcastDim bg.cols ob.vna_traces.cols ≠ none →
      (mode = "-" ∨ mode = "/") →
      ∃ M, (debackground ob bg mode).1 = .ok M) := by
  rcases hr : broadcastDim bg.rows ob.vna_traces.rows with _ | R
  · have hext : bcastOp (· * ·) bg (onesLike ob.vna_traces) = none := by
      simp [bcastOp, onesLike, hr]
    refine ⟨?_, fun hcr _ _ => absurd rfl hcr⟩
    simp [debackground, debackgroundCore, hext, hr]
  · rcases hc : broadcastDim bg.cols ob.vna_traces.cols with _ | C
    · have hext : bcastOp (· * ·) bg (onesLike ob.vna_traces) = none := by
        simp [bcastOp, onesLike, hr, hc]
      refine ⟨?_, fun _ hcc _ => absurd rfl hcc⟩
      simp [debackground, debackgroundCore, hext, hc]
    · -- both dimensions broadcast: the extended background exists
      obtain ⟨ext, hext⟩ :=
        bcastOp_isSome_of (· * ·) bg (onesLike ob.vna_traces)
          ⟨R, by simpa [onesLike] using hr⟩ ⟨C, by simpa [onesLike] using hc⟩
      obtain ⟨hdr, hdc⟩ := bcastOp_dims hext
      simp only [onesLike] at hdr hdc
      rw [hr] at hdr
      rw [hc] at hdc
      have hrext : ext.rows = R := (Option.some.inj hdr).symm
      have hcext : ext.cols = C := (Option.some.inj hdc).symm
      have hrd : ∃ d, broadcastDim ob.vna_traces.rows R = some d :=
        broadcastDim_compat hr
      have hcd : ∃ d, broadcastDim ob.vna_traces.cols C = some d :=
        broadcastDim_compat hc
      have hok : ∀ (op : ℚ → ℚ → ℚ) (A : NMat),
          A.rows = ob.vna_traces.rows → A.cols = ob.vna_traces.cols →
          ∃ M, bcastOp op A ext = some M := by
        intro op A hAr hAc
        refine bcastOp_isSome_of op A ext ?_ ?_
        · rw [hAr, hrext]
          exact hrd
        · rw [hAc, hcext]
          exact hcd
      constructor
      · -- the broadcast error never escapes once the extension succeeded
        rw [iff_false_intro (by simp [hr] : ¬(some R = none ∨ some C = none))]
        simp only [debackground, debackgroundCore, hext]
        by_cases hm1 : mode = "-"
        · by_cases hsnn : ob.trace.data[1]? = ob.trace.data[2]?
          · obtain ⟨M, hM⟩ := hok (· - ·) ob.vna_traces rfl rfl
            simp [hm1, hsnn, hM]
          · obtain ⟨M, hM⟩ := hok (· - ·) (scalarAddOne ob.vna_traces) rfl rfl
            simp [hm1, hsnn, hM]
        · by_cases hm2 : mode = "/"
          · obtain ⟨M, hM⟩ := hok (· / ·) ob.vna_traces rfl rfl
            simp [hm1, hm2, hM]
          · simp [hm1, hm2]
      · intro _ _ hm
        simp only [debackground, debackgroundCore, hext]
        rcases hm with hm | hm
        · by_cases hsnn : ob.trace.data[1]? = ob.trace.data[2]?
          · obtain ⟨M, hM⟩ := hok (· - ·) ob.vna_traces rfl rfl
            exact ⟨M, by simp [hm, hsnn, hM]⟩
          · obtain ⟨M, hM⟩ := hok (· - ·) (scalarAddOne ob.vna_traces) rfl rfl
            exact ⟨M, by simp [hm, hsnn, hM]⟩
        · by_cases hm1 : mode = "-"
          · rw [hm1] at hm
            exact absurd hm (by decide)
          · obtain ⟨M, hM⟩ := hok (· / ·) ob.vna_traces rfl rfl
            exact ⟨M, by simp [hm, hm1, hM]⟩

/-- Witness for C8 (amended): the 3×10 background fails against the 4×10
data (non-broadcastable rows), while the 4×1 background — a differing
but broadcastable shape — succeeds in ratio mode. -/
theorem C8_debackground_shape_witness :
    (debackground ⟨dataM, "S21"⟩ bgM3 "/").1 =
      .error "operands could not be broadcast together" ∧
    (broadcastDim bgM1.rows dataM.rows ≠ none ∧
      broadcastDim bgM1.cols dataM.cols ≠ none) ∧
    ∃ M, (debackground ⟨dataM, "S21"⟩ bgM1 "/").1 = .ok M :=
  ⟨(C8_debackground_shape ⟨dataM, "S21"⟩ bgM3 "/").1.mpr (Or.inl rfl),
    ⟨by decide, by decide⟩,
    (C8_debackground_shape ⟨dataM, "S21"⟩ bgM1 "/").2 (by decide) (by decide)
      (Or.inr rfl)⟩

/-- C10: for a mode other than `-` and `/`, `debackground`
returns an error — the result variable is never assigned, so the `return`
raises (or the broadcast step raised first) — and the stored
`vna_traces` of the object is unchanged by the failed call. -/
theorem C10_debackground_bad_mode (ob : DebgObj) (bg : NMat) (mode : String)
    (h1 : mode ≠ "-") (h2 : mode ≠ "/") :
    (∃ e, (debackground ob bg mode).1 = .error e) ∧
    (debackground ob bg mode).2.vna_traces = ob.vna_traces := by
  refine ⟨?_, rfl⟩
  unfold debackground debackgroundCore
  rcases bcastOp (· * ·) bg (onesLike ob.vna_traces) with _ | ext
  · exact ⟨_, rfl⟩
  · simp [h1, h2]

/-- Witness for C10 with the unsupported mode `x`. -/
theorem C10_debackground_bad_mode_witness :
    ("x" ≠ "-" ∧ "x" ≠ "/") ∧
    ((∃ e, (debackground ⟨dataM, "S21"⟩ bgM1 "x").1 = .error e) ∧
      (debackground ⟨dataM, "S21"⟩ bgM1 "x").2.vna_traces = dataM) :=
  ⟨⟨by decide, by decide⟩,
    C10_debackground_bad_mode ⟨dataM, "S21"⟩ bgM1 "x" (by decide) (by decide)⟩

end Ccukit
